import Mathlib

/-!
Verification of the D38999 part-number builder and specification parser.

The development shallowly embeds the two Python modules of the repository:

* `d38999.py` — `D38999PartNumber` (descriptor construction, part-number
  building, property resolution, SVG face-view generation) and the reference
  tables it carries as class attributes.
* `d38999_specs.py` — `D38999Specs` (part-number parsing, contact layout,
  dimensions, assembly tooling) and its reference tables.

Python dictionaries become association lists looked up with `lookup'`
(first match wins, like Python key lookup; the two finish tables have
disjoint keys so `ENV_CLASSES ++ HERMETIC_CLASSES` agrees with the Python
merge `{**ENV_CLASSES, **HERMETIC_CLASSES}` in which the second table wins
on a collision).  Python floats become rationals.  The transcendental calls
`math.cos`/`math.sin` are abstracted as function parameters (`cosf`, `sinf`,
`cDeg`, `sDeg`); everything around them is embedded exactly.  Fallible
Python operations (unguarded dictionary subscripts, string indexing,
`int(...)`) are embedded in `Except PyErr`.
-/

/-- Python-style association-list lookup: first binding of the key wins. -/
def lookup' {α : Type} {β : Type} [DecidableEq α] : α → List (α × β) → Option β
  | _, [] => none
  | a, (k, v) :: t => if a = k then some v else lookup' a t

/-- Character of a Python string at index `i` (`s[i]`); `none` models `IndexError`. -/
def pyCharAt (s : String) (i : Nat) : Option Char :=
  s.data.get? i

/-- Python slice `s[:n]`. -/
def pyTake (s : String) (n : Nat) : String :=
  ⟨s.data.take n⟩

/-- Python slice `s[a:b]` (out-of-range bounds clamp, as in Python). -/
def pySlice (s : String) (a b : Nat) : String :=
  ⟨(s.data.drop a).take (b - a)⟩

/-- Python `s.upper()` restricted to the ASCII data of this catalog. -/
def pyUpper (s : String) : String :=
  ⟨s.data.map Char.toUpper⟩

/-- Python `s.replace(" ", "")`: removes every space character. -/
def removeSpaces (s : String) : String :=
  ⟨s.data.filter (fun c => c ≠ ' ')⟩

/-- Python `int(s)` on the unsigned decimal strings this catalog feeds it;
`none` models the `ValueError` raised on a non-numeric literal. -/
def pyInt (s : String) : Option Nat :=
  if s.data.isEmpty then none
  else if s.data.all (fun c => c.isDigit) then
    some (s.data.foldl (fun n c => 10 * n + (c.toNat - 48)) 0)
  else none

/-- Python `round(q, 2)`: round half to even at two decimal places. -/
def pyRound2 (q : ℚ) : ℚ :=
  let m := q * 100
  let f : ℤ := ⌊m⌋
  let r := m - (f : ℚ)
  if r < 1 / 2 then (f : ℚ) / 100
  else if 1 / 2 < r then ((f : ℚ) + 1) / 100
  else if f % 2 = 0 then (f : ℚ) / 100 else ((f : ℚ) + 1) / 100

/-- Splitting a character list at every occurrence of the separator, with
Python `str.split` semantics for a one-character separator (adjacent
separators and ends yield empty fields). -/
def splitChar (sep : Char) : List Char → List (List Char)
  | [] => [[]]
  | c :: t =>
    if c = sep then [] :: splitChar sep t
    else
      match splitChar sep t with
      | [] => [[c]]
      | h :: r => (c :: h) :: r

/-- Python `part_number.split('/')`. -/
def pySplitOnSlash (s : String) : List String :=
  (splitChar '/' s.data).map String.mk

def isPrefixOfChars : List Char → List Char → Bool
  | [], _ => true
  | _ :: _, [] => false
  | a :: as, b :: bs => a = b && isPrefixOfChars as bs

/-- Python `s.startswith(p)`. -/
def pyStartsWith (s p : String) : Bool :=
  isPrefixOfChars p.data s.data

/-- Lexicographic comparison of character lists by code point, as Python
compares strings. -/
def charListLe : List Char → List Char → Bool
  | [], _ => true
  | _ :: _, [] => false
  | x :: xs, y :: ys => if x = y then charListLe xs ys else decide (x < y)

/-- Python string `<=` (lexicographic by code point). -/
def strLe (a b : String) : Bool :=
  charListLe a.data b.data

def insertSorted (x : String) : List String → List String
  | [] => [x]
  | y :: t => if strLe x y then x :: y :: t else y :: insertSorted x t

/-- Python `sorted(...)` on a list of strings (insertion sort; the inputs it
is applied to are duplicate-free, so stability is irrelevant). -/
def sortStrings : List String → List String
  | [] => []
  | x :: t => insertSorted x (sortStrings t)

/-! ## Reference tables of `d38999.py` (class attributes of `D38999PartNumber`) -/

/-- `D38999PartNumber.SERIES_III`. -/
def SERIES_III : List (String × String) :=
  [("26", "Plug with accessory threads"),
   ("24", "Jam-nut mount receptacle"),
   ("20", "Wall mount receptacle"),
   ("21", "Box mount receptacle (hermetic)"),
   ("25", "Solder mount receptacle (hermetic)"),
   ("23", "Jam-nut mount receptacle (hermetic)"),
   ("27", "Weld mount receptacle (hermetic)")]

/-- `D38999PartNumber.SERIES_IV`. -/
def SERIES_IV : List (String × String) :=
  [("46", "Plug without EMI ground spring"),
   ("47", "Plug with EMI ground spring"),
   ("40", "Wall mount receptacle"),
   ("42", "Box mount receptacle"),
   ("44", "Jam-nut mount receptacle"),
   ("49", "In-line receptacle"),
   ("41", "Box mount receptacle (hermetic)"),
   ("43", "Jam-nut mount receptacle (hermetic)"),
   ("45", "Solder mount receptacle (hermetic)"),
   ("48", "Weld mount receptacle (hermetic)")]

/-- Value type of `ENV_CLASSES` / `HERMETIC_CLASSES`.  The optional Python
dictionary keys `temp_range` and `salt_spray` become `Option` fields and the
keys `conductive` / `space_grade` (read with `.get(_, False)`) become `Bool`
fields holding the value that read produces. -/
structure ClassInfo where
  name : String
  material : String
  temp_range : Option String
  salt_spray : Option String
  conductive : Bool
  space_grade : Bool
  deriving DecidableEq

/-- `D38999PartNumber.ENV_CLASSES`. -/
def ENV_CLASSES : List (String × ClassInfo) :=
  [("F", ⟨"Electroless Nickel", "Aluminum", some "-65°C to +200°C", some "48 hour", true, false⟩),
   ("G", ⟨"Space-Grade Electroless Nickel", "Aluminum", some "-65°C to +200°C", some "48 hour", true, true⟩),
   ("W", ⟨"Cadmium Olive Drab over Electroless Nickel", "Aluminum", some "-65°C to +175°C", some "500 hour", true, false⟩),
   ("T", ⟨"Nickel-PTFE", "Aluminum", some "-65°C to +175°C", none, true, false⟩),
   ("J", ⟨"Cadmium Olive Drab (Composite)", "Composite", some "-65°C to +175°C", some "500 hour", true, false⟩),
   ("M", ⟨"Electroless Nickel (Composite)", "Composite", some "-65°C to +200°C", some "500 hour", true, false⟩),
   ("K", ⟨"Passivate (Stainless)", "Stainless Steel", none, none, true, false⟩),
   ("S", ⟨"Electrodeposited Nickel (Stainless)", "Stainless Steel", none, none, true, false⟩),
   ("V", ⟨"Tin-Zinc over Electroless Nickel", "Aluminum", none, none, true, false⟩),
   ("Z", ⟨"Zinc Nickel Black", "Aluminum", none, none, true, false⟩),
   ("AA", ⟨"Tri-Nickel Alloy", "Aluminum", none, none, true, false⟩)]

/-- `D38999PartNumber.HERMETIC_CLASSES`. -/
def HERMETIC_CLASSES : List (String × ClassInfo) :=
  [("Y", ⟨"Passivate (Hermetic)", "Stainless Steel", none, none, true, false⟩),
   ("N", ⟨"Electrodeposited Nickel (Hermetic)", "Stainless Steel", none, some "500 hour", true, false⟩),
   ("H", ⟨"Passivate Space-Grade (Hermetic)", "Stainless Steel", none, none, true, true⟩)]

/-- The Python merge `{**self.ENV_CLASSES, **self.HERMETIC_CLASSES}` used in
`get_properties`; the key sets are disjoint, so first-match lookup over the
concatenation coincides with lookup in the merged dictionary. -/
def ALL_CLASSES : List (String × ClassInfo) :=
  ENV_CLASSES ++ HERMETIC_CLASSES

structure ShellInfo where
  size : Nat
  thread_size : String
  deriving DecidableEq

/-- `D38999PartNumber.SHELL_SIZES`. -/
def SHELL_SIZES : List (String × ShellInfo) :=
  [("A", ⟨9, "M12"⟩), ("B", ⟨11, "M15"⟩), ("C", ⟨13, "M18"⟩),
   ("D", ⟨15, "M22"⟩), ("E", ⟨17, "M25"⟩), ("F", ⟨19, "M28"⟩),
   ("G", ⟨21, "M31"⟩), ("H", ⟨23, "M34"⟩), ("J", ⟨25, "M37"⟩)]

/-- Value type of `CONTACT_TYPES`; the optional `cycles` key becomes an
`Option` field. -/
structure ContactTypeInfo where
  type : String
  cycles : Option Nat
  deriving DecidableEq

/-- `D38999PartNumber.CONTACT_TYPES`. -/
def CONTACT_TYPES : List (String × ContactTypeInfo) :=
  [("P", ⟨"Pin", some 500⟩), ("S", ⟨"Socket", some 500⟩),
   ("H", ⟨"Pin", some 1500⟩), ("J", ⟨"Socket", some 1500⟩),
   ("A", ⟨"Pin insert, less standard contacts", none⟩),
   ("B", ⟨"Socket insert, less standard contacts", none⟩)]

/-- `D38999PartNumber.POLARIZATIONS`. -/
def POLARIZATIONS : List (String × String) :=
  [("N", "Normal (Master key)"), ("A", "Alternate A"), ("B", "Alternate B"),
   ("C", "Alternate C"), ("D", "Alternate D"), ("E", "Alternate E"),
   ("K", "Alternate K (Series IV)"), ("L", "Alternate L (Series IV)"),
   ("M", "Alternate M (Series IV)"), ("R", "Alternate R (Series IV)")]

/-- One entry of a `positions` list in `INSERT_ARRANGEMENTS`. -/
structure PosDef where
  label : String
  angle : ℚ
  radius : ℚ
  deriving DecidableEq

/-- Value type of `INSERT_ARRANGEMENTS`; the optional `positions` key becomes
an `Option` field. -/
structure InsertInfo where
  contacts : Nat
  size : String
  service_rating : String
  positions : Option (List PosDef)
  deriving DecidableEq

/-- Positions of arrangement `A35` in `D38999PartNumber.INSERT_ARRANGEMENTS`. -/
def A35_positions : List PosDef :=
  [⟨"A", 0, 0⟩, ⟨"B", 60, 5/2⟩, ⟨"C", 120, 5/2⟩,
   ⟨"D", 180, 5/2⟩, ⟨"E", 240, 5/2⟩, ⟨"F", 300, 5/2⟩]

/-- Positions of arrangement `B35` (the two Python list comprehensions
written out: labels `B`..`G` at `i*60`, radius 2.5, then `H`..`M` at
`30+i*60`, radius 4.5). -/
def B35_positions : List PosDef :=
  [⟨"A", 0, 0⟩,
   ⟨"B", 0, 5/2⟩, ⟨"C", 60, 5/2⟩, ⟨"D", 120, 5/2⟩,
   ⟨"E", 180, 5/2⟩, ⟨"F", 240, 5/2⟩, ⟨"G", 300, 5/2⟩,
   ⟨"H", 30, 9/2⟩, ⟨"I", 90, 9/2⟩, ⟨"J", 150, 9/2⟩,
   ⟨"K", 210, 9/2⟩, ⟨"L", 270, 9/2⟩, ⟨"M", 330, 9/2⟩]

/-- `D38999PartNumber.INSERT_ARRANGEMENTS`. -/
def INSERT_ARRANGEMENTS : List (String × InsertInfo) :=
  [("A35", ⟨6, "22D", "M", some A35_positions⟩),
   ("B35", ⟨13, "22D", "M", some B35_positions⟩),
   ("C35", ⟨22, "22D", "M", none⟩),
   ("D35", ⟨37, "22D", "M", none⟩),
   ("E35", ⟨55, "22D", "M", none⟩),
   ("F35", ⟨66, "22D", "M", none⟩),
   ("F45", ⟨67, "22D", "M", none⟩),
   ("G35", ⟨79, "22D", "M", none⟩),
   ("H35", ⟨100, "22D", "M", none⟩),
   ("J35", ⟨128, "22D", "M", none⟩),
   ("A98", ⟨3, "20", "I", none⟩),
   ("B4", ⟨4, "20", "I", none⟩),
   ("B5", ⟨5, "20", "I", none⟩),
   ("B98", ⟨6, "20", "I", none⟩),
   ("B99", ⟨7, "20", "I", none⟩),
   ("C8", ⟨8, "20", "I", none⟩),
   ("C98", ⟨10, "20", "I", none⟩),
   ("D18", ⟨18, "20", "I", none⟩),
   ("D19", ⟨19, "20", "I", none⟩),
   ("E26", ⟨26, "20", "I", none⟩),
   ("F32", ⟨32, "20", "I", none⟩),
   ("G24", ⟨24, "20", "I", none⟩),
   ("G25", ⟨25, "20", "I", none⟩),
   ("G27", ⟨27, "20", "I", none⟩),
   ("G41", ⟨41, "20", "I", none⟩),
   ("H32", ⟨32, "20", "I", none⟩),
   ("H34", ⟨34, "20", "I", none⟩),
   ("H36", ⟨36, "20", "I", none⟩),
   ("H53", ⟨53, "20", "I", none⟩),
   ("H55", ⟨55, "20", "I", none⟩),
   ("J61", ⟨61, "20", "I", none⟩),
   ("B2", ⟨2, "16", "I", none⟩),
   ("C4", ⟨4, "16", "I", none⟩),
   ("D5", ⟨5, "16", "II", none⟩),
   ("E8", ⟨8, "16", "II", none⟩),
   ("F11", ⟨11, "16", "II", none⟩),
   ("G16", ⟨16, "16", "II", none⟩),
   ("H21", ⟨21, "16", "II", none⟩),
   ("H97", ⟨16, "16", "I", none⟩),
   ("H99", ⟨11, "16", "II", none⟩),
   ("J29", ⟨29, "16", "I", none⟩),
   ("J37", ⟨37, "16", "II", none⟩),
   ("E6", ⟨6, "12", "I", none⟩),
   ("G11", ⟨11, "12", "I", none⟩),
   ("J19", ⟨19, "12", "I", none⟩)]

structure DimsIII where
  shell_dia : ℚ
  coupling_dia : ℚ
  thread : String
  panel_cutout : ℚ
  deriving DecidableEq

/-- `D38999PartNumber.SERIES_III_DIMENSIONS`. -/
def SERIES_III_DIMENSIONS : List (String × DimsIII) :=
  [("A", ⟨858/1000, 732/1000, "M12", 693/1000⟩),
   ("B", ⟨984/1000, 839/1000, "M15", 825/1000⟩),
   ("C", ⟨1157/1000, 1008/1000, "M18", 1010/1000⟩),
   ("D", ⟨1280/1000, 1138/1000, "M22", 1135/1000⟩),
   ("E", ⟨1406/1000, 1276/1000, "M25", 1260/1000⟩),
   ("F", ⟨1516/1000, 1382/1000, "M28", 1385/1000⟩),
   ("G", ⟨1642/1000, 1508/1000, "M31", 1510/1000⟩),
   ("H", ⟨1768/1000, 1626/1000, "M34", 1635/1000⟩),
   ("J", ⟨1890/1000, 1752/1000, "M37", 1760/1000⟩)]

structure DimsIV where
  shell_dia : ℚ
  thread : String
  panel_cutout_wall : ℚ
  panel_cutout_jam : ℚ
  deriving DecidableEq

/-- `D38999PartNumber.SERIES_IV_DIMENSIONS` (no entry for shell `A`). -/
def SERIES_IV_DIMENSIONS : List (String × DimsIV) :=
  [("B", ⟨781/1000, "M15", 625/1000, 825/1000⟩),
   ("C", ⟨921/1000, "M18", 750/1000, 1010/1000⟩),
   ("D", ⟨1047/1000, "M22", 906/1000, 1135/1000⟩),
   ("E", ⟨1218/1000, "M25", 1016/1000, 1260/1000⟩),
   ("F", ⟨1296/1000, "M28", 1142/1000, 1385/1000⟩),
   ("G", ⟨1421/1000, "M31", 1266/1000, 1510/1000⟩),
   ("H", ⟨1546/1000, "M34", 1375/1000, 1635/1000⟩),
   ("J", ⟨1672/1000, "M37", 1484/1000, 1760/1000⟩)]

/-- The per-series dimension dictionaries stored under `props['dimensions']`:
their key sets differ, so the value is a sum of the two record shapes. -/
inductive Dims where
  | iii (d : DimsIII)
  | iv (d : DimsIV)
  deriving DecidableEq

/-- The `shell_dia` read `props['dimensions'].get('shell_dia', 1.0)` in
`generate_svg`; both dictionary shapes carry the key, so the 1.0 default is
never taken. -/
def Dims.shell_dia : Dims → ℚ
  | .iii d => d.shell_dia
  | .iv d => d.shell_dia

/-- `D38999PartNumber.CRIMP_TOOLS`: each value is itself a small dictionary
of tool-role / part-number pairs, kept as an association list. -/
def CRIMP_TOOLS : List (String × List (String × String)) :=
  [("22D", [("crimper", "M22520/2-01 (Glenair 809-015)"),
            ("positioner_pin", "M22520/2-09 (K42 Daniels)"),
            ("positioner_socket", "M22520/2-07 (K40 Daniels)"),
            ("insertion_tool", "M81969/14-01 (Glenair 859-020)"),
            ("extraction_tool", "M81969/14-01 (Glenair 859-020)")]),
   ("20", [("crimper", "M22520/2-01 (Glenair 809-015)"),
           ("positioner", "M22520/2-10 (K43 Daniels)"),
           ("insertion_tool", "M81969/14-10 (Glenair 809-207)"),
           ("extraction_tool", "M81969/14-10 (Glenair 809-207)")]),
   ("16", [("crimper", "M22520/1-01 (Glenair 809-136)"),
           ("positioner", "M22520/1-04 (Glenair 809-137)"),
           ("insertion_tool", "M81969/14-03 (Glenair 809-131)"),
           ("extraction_tool", "M81969/14-03 (Glenair 809-131)")]),
   ("12", [("crimper", "M22520/1-01 (Glenair 809-136)"),
           ("positioner", "M22520/1-04 (Glenair 809-137)"),
           ("insertion_tool", "M81969/14-04 (Glenair 809-132)"),
           ("extraction_tool", "M81969/14-04 (Glenair 809-132)")]),
   ("8_COAX", [("crimper", "M22520/2-01 (Glenair 809-015)"),
               ("positioner", "M22520/2-31 (K-406 Daniels)"),
               ("shield_crimper", "M22520/5-01 (Glenair 809-129)"),
               ("shield_die", "M22520/5-05 (Glenair 859-051)")]),
   ("12_COAX", [("crimper", "M22520/2-01 (Glenair 809-015)"),
                ("positioner", "M22520/2-34 (K-323 Daniels)"),
                ("shield_crimper", "M22520/31-01 (Glenair 809-133)"),
                ("shield_positioner", "M22520/31-02 (Glenair 809-134)")])]

/-! ## `D38999PartNumber` construction and resolution -/

/-- Errors raised by the Python code: `ValueError(msg)`, `IndexError` and
`KeyError(key)`. -/
inductive PyErr where
  | valueError (msg : String)
  | indexError
  | keyError (key : String)
  deriving DecidableEq

/-- The state `D38999PartNumber.__init__` leaves on a successfully
constructed instance. -/
structure D38999PartNumber where
  series_code : String
  class_code : String
  shell_code : String
  insert_arrangement : String
  contact_type : String
  polarization : String
  series : String
  series_desc : String
  deriving DecidableEq

/-- `D38999PartNumber.__init__`: the series code is stored verbatim and the
other five codes are uppercased (none is stripped of whitespace); the only
rejection is an unknown series code, raised as
`ValueError(f"Invalid series code: {series_code}")`. -/
def mk_part_number (series_code class_code shell_code insert_arrangement
    contact_type polarization : String) : Except PyErr D38999PartNumber :=
  match lookup' series_code SERIES_III with
  | some desc =>
    .ok ⟨series_code, pyUpper class_code, pyUpper shell_code,
         pyUpper insert_arrangement, pyUpper contact_type, pyUpper polarization,
         "III", desc⟩
  | none =>
    match lookup' series_code SERIES_IV with
    | some desc =>
      .ok ⟨series_code, pyUpper class_code, pyUpper shell_code,
           pyUpper insert_arrangement, pyUpper contact_type, pyUpper polarization,
           "IV", desc⟩
    | none => .error (.valueError ("Invalid series code: " ++ series_code))

/-- `D38999PartNumber.build_part_number`. -/
def build_part_number (pn : D38999PartNumber) : String :=
  "D38999/" ++ pn.series_code ++ pn.class_code ++ pn.shell_code ++
    pn.insert_arrangement ++ pn.contact_type ++ pn.polarization

/-- The dictionary returned by `D38999PartNumber.get_properties`: a key that
is only set under an `if ... in ...` guard becomes an `Option` field (`none`
means the key is absent from the Python dictionary). -/
structure Props where
  part_number : String
  series : String
  series_description : String
  specification : String
  class_code : Option String
  finish : Option String
  material : Option String
  temperature_range : Option String
  salt_spray : Option String
  conductive : Option Bool
  space_grade : Option Bool
  shell_code : Option String
  shell_size : Option Nat
  thread_size : Option String
  insert_arrangement : String
  contact_count : Option Nat
  contact_size : Option String
  service_rating : Option String
  contact_positions : Option (List PosDef)
  contact_gender : Option String
  mating_cycles : Option Nat
  polarization : Option String
  coupling_type : Option String
  shielding : String
  sealing : String
  dimensions : Option Dims
  tooling : Option (List (String × String))
  deriving DecidableEq

/-- `D38999PartNumber.get_properties`: every sub-lookup is guarded in the
source by an `in` test, so the function is total on constructed descriptors
and a missing entry simply leaves the corresponding key absent (`none`). -/
def get_properties (pn : D38999PartNumber) : Props :=
  let ci? := lookup' pn.class_code ALL_CLASSES
  let si? := lookup' pn.shell_code SHELL_SIZES
  let ii? := lookup' pn.insert_arrangement INSERT_ARRANGEMENTS
  let ct? := lookup' pn.contact_type CONTACT_TYPES
  { part_number := build_part_number pn
    series := pn.series
    series_description := pn.series_desc
    specification := "MIL-DTL-38999"
    class_code := ci?.map (fun _ => pn.class_code)
    finish := ci?.map (fun ci => ci.name)
    material := ci?.map (fun ci => ci.material)
    temperature_range := ci?.map (fun ci => ci.temp_range.getD "N/A")
    salt_spray := ci?.map (fun ci => ci.salt_spray.getD "N/A")
    conductive := ci?.map (fun ci => ci.conductive)
    space_grade := ci?.map (fun ci => ci.space_grade)
    shell_code := si?.map (fun _ => pn.shell_code)
    shell_size := si?.map (fun si => si.size)
    thread_size := si?.map (fun si => si.thread_size)
    insert_arrangement := pn.insert_arrangement
    contact_count := ii?.map (fun ii => ii.contacts)
    contact_size := ii?.map (fun ii => ii.size)
    service_rating := ii?.map (fun ii => ii.service_rating)
    contact_positions := ii?.bind (fun ii => ii.positions)
    contact_gender := ct?.map (fun ct => ct.type)
    mating_cycles := ct?.bind (fun ct => ct.cycles)
    polarization := lookup' pn.polarization POLARIZATIONS
    coupling_type :=
      if pn.series = "III" then some "Triple-start thread"
      else if pn.series = "IV" then some "90° breech-lock"
      else none
    shielding := "65dB minimum at 10 GHz"
    sealing := "IP67"
    dimensions :=
      if pn.series = "III" then (lookup' pn.shell_code SERIES_III_DIMENSIONS).map Dims.iii
      else if pn.series = "IV" then (lookup' pn.shell_code SERIES_IV_DIMENSIONS).map Dims.iv
      else none
    tooling := ii?.bind (fun ii => lookup' ii.size CRIMP_TOOLS) }

/-! ## `D38999PartNumber.generate_svg` -/

/-- The angle sent to `math.cos`/`math.sin` in `generate_svg`:
`(pos['angle'] - 90) * 3.14159 / 180` — 90 degrees are subtracted so that
0° points up at the master keyway. -/
def svgAngleRad (angle : ℚ) : ℚ :=
  (angle - 90) * (314159 / 100000) / 180

/-- One contact dot of `generate_svg`:
`x = center_x + radius*scale*cos(angle_rad)`,
`y = center_y + radius*scale*sin(angle_rad)`, with the trigonometric
functions on radians abstracted as `cosf` / `sinf`. -/
def svgDot (cosf sinf : ℚ → ℚ) (cx cy scale : ℚ) (p : PosDef) : ℚ × ℚ :=
  (cx + p.radius * scale * cosf (svgAngleRad p.angle),
   cy + p.radius * scale * sinf (svgAngleRad p.angle))

/-- `contact_diameters` local table of `generate_svg` (mm). -/
def contact_diameters : List (String × ℚ) :=
  [("22D", 13/10), ("20", 3/2), ("16", 2), ("12", 14/5)]

/-- The resolved drawing data `generate_svg` interpolates into its SVG
markup. -/
structure SvgData where
  part_number : String
  contact_count : Nat
  contact_size : String
  contact_dia : ℚ
  shell_radius : ℚ
  dots : List (ℚ × ℚ × String)

/-- `D38999PartNumber.generate_svg` (without the optional file write).  When
`contact_positions` is absent from the properties the fixed message string is
returned; otherwise the drawing data is computed exactly as in the source and
the final markup interpolation (pure string assembly of already-computed
values) is abstracted as `render`. -/
def generate_svg (cosf sinf : ℚ → ℚ) (render : SvgData → String)
    (pn : D38999PartNumber) : String :=
  let props := get_properties pn
  match props.contact_positions with
  | none => "SVG generation requires contact position data"
  | some positions =>
    let scale : ℚ := 20
    let center_x : ℚ := 200
    let center_y : ℚ := 200
    let contact_size := props.contact_size.getD "20"
    let contact_dia := ((lookup' contact_size contact_diameters).getD (3/2)) * scale
    let shell_radius : ℚ :=
      match props.dimensions with
      | none => 50
      | some d => d.shell_dia * (254/10) / 2 * scale
    render { part_number := props.part_number
             contact_count := props.contact_count.getD 0
             contact_size := contact_size
             contact_dia := contact_dia
             shell_radius := shell_radius
             dots := positions.map (fun p =>
               ((svgDot cosf sinf center_x center_y scale p).1,
                (svgDot cosf sinf center_x center_y scale p).2, p.label)) }

/-! ## Reference tables of `d38999_specs.py` (`D38999Specs`) -/

/-- Value type of `D38999Specs.CONTACT_SPECS`. -/
structure SpecContactSpec where
  wire_gauge : String
  current_rating : ℚ
  crimp_tool : String
  extraction_tool : String
  deriving DecidableEq

/-- `D38999Specs.CONTACT_SPECS` (keyed by the integer contact size). -/
def SPECS_CONTACT_SPECS : List (Nat × SpecContactSpec) :=
  [(4, ⟨"4-8 AWG", 75, "M22520/5-01", "M81969/14-01"⟩),
   (8, ⟨"8-12 AWG", 46, "M22520/5-01", "M81969/14-02"⟩),
   (12, ⟨"12-16 AWG", 23, "M22520/2-01", "M81969/14-03"⟩),
   (16, ⟨"16-20 AWG", 13, "M22520/2-01", "M81969/14-04"⟩),
   (20, ⟨"20-24 AWG", 15/2, "M22520/2-01", "M81969/14-05"⟩),
   (22, ⟨"22-26 AWG", 5, "M22520/2-01", "M81969/14-06"⟩)]

/-- `D38999Specs.SERIES` (keyed by the one-character series indicator). -/
def SPECS_SERIES : List (Char × String) :=
  [('W', "Series I - Bayonet Coupling"),
   ('T', "Series II - Threaded Coupling"),
   ('Z', "Series III - Breech Coupling"),
   ('H', "Series IV - Hermetic Solder")]

/-- One entry of a contact layout in `D38999Specs.INSERT_ARRANGEMENTS`. -/
structure SpecPos where
  pos : String
  size : Nat
  angle : ℚ
  radius : ℚ
  deriving DecidableEq

/-- The contact layout of arrangement `A98` for shell size 24 in
`D38999Specs.INSERT_ARRANGEMENTS`. -/
def A98_layout : List SpecPos :=
  [⟨"A", 16, 0, 19/2⟩, ⟨"B", 16, 45, 19/2⟩, ⟨"C", 16, 90, 19/2⟩,
   ⟨"D", 16, 135, 19/2⟩, ⟨"E", 16, 180, 19/2⟩, ⟨"F", 16, 225, 19/2⟩,
   ⟨"G", 16, 270, 19/2⟩, ⟨"H", 16, 315, 19/2⟩,
   ⟨"1", 20, 45/2, 13/2⟩, ⟨"2", 20, 135/2, 13/2⟩, ⟨"3", 20, 225/2, 13/2⟩,
   ⟨"4", 20, 315/2, 13/2⟩, ⟨"5", 20, 405/2, 13/2⟩, ⟨"6", 20, 495/2, 13/2⟩,
   ⟨"7", 20, 585/2, 13/2⟩, ⟨"8", 20, 675/2, 13/2⟩]

/-- `D38999Specs.INSERT_ARRANGEMENTS`: shell size -> arrangement code ->
contact layout (the inner Python dictionary has the single key `contacts`,
whose value is stored here directly). -/
def SPECS_INSERT_ARRANGEMENTS : List (Nat × List (String × List SpecPos)) :=
  [(24, [("A98", A98_layout)])]

/-- The `Contact` dataclass of `d38999_specs.py`. -/
structure SpecContact where
  position : String
  size : Nat
  x : ℚ
  y : ℚ
  type : String
  wire_gauge : String
  current_rating : ℚ
  crimp_tool : String
  extraction_tool : String
  deriving DecidableEq

/-- The `Dimension` dataclass of `d38999_specs.py`. -/
structure SpecDimension where
  name : String
  value : ℚ
  tolerance : ℚ
  reference : String
  deriving DecidableEq

/-- The voltage-rating dictionary returned by
`D38999Specs._get_voltage_rating` (keys renamed to legal identifiers:
`50000_ft_rms` -> `ft50000_rms`, `70000_ft_rms` -> `ft70000_rms`). -/
structure VoltageRating where
  sea_level_rms : ℚ
  sea_level_dc : ℚ
  ft50000_rms : ℚ
  ft70000_rms : ℚ
  dielectric_withstand : ℚ
  insulation_resistance_min : ℚ
  deriving DecidableEq

/-- `D38999Specs.__init__`: the `environmental_specs` dictionary. -/
structure EnvSpecsS where
  operating_temp_min : Int
  operating_temp_max : Int
  storage_temp_min : Int
  storage_temp_max : Int
  humidity : Nat
  altitude_max : Nat
  vibration_freq_min : Nat
  vibration_freq_max : Nat
  shock : Nat
  salt_spray_hours : Nat
  ip_rating : String
  deriving DecidableEq

def SPECS_ENVIRONMENTAL : EnvSpecsS :=
  ⟨-65, 200, -67, 200, 95, 21336, 10, 2000, 100, 48, "IP67"⟩

/-- `D38999Specs.__init__`: the `mechanical_specs` dictionary. -/
structure MechSpecsS where
  mating_cycles_min : Nat
  mating_cycles_high_perf : Nat
  engagement_rotation_bayonet : Nat
  engagement_rotation_breech : Nat
  deriving DecidableEq

def SPECS_MECHANICAL : MechSpecsS := ⟨500, 1000, 90, 45⟩

/-- The `ConnectorSpecs` dataclass of `d38999_specs.py`. -/
structure ConnectorSpecs where
  part_number : String
  series : String
  shell_size : Nat
  insert_arrangement : String
  contacts : List SpecContact
  dimensions : List SpecDimension
  assembly_tooling : List String
  voltage_rating : VoltageRating
  environmental_specs : EnvSpecsS
  mechanical_specs : MechSpecsS
  deriving DecidableEq

/-- The planar coordinates `D38999Specs._get_contacts` computes for one
contact: `x = round(radius * cos(radians(angle)), 2)` and
`y = round(radius * sin(radians(angle)), 2)`.  The composites
`cos(radians(·))` / `sin(radians(·))` over the degree angle are abstracted
as `cDeg` / `sDeg`; no 90-degree shift is applied to the angle. -/
def specs_contact_xy (cDeg sDeg : ℚ → ℚ) (radius angle : ℚ) : ℚ × ℚ :=
  (pyRound2 (radius * cDeg angle), pyRound2 (radius * sDeg angle))

/-- `D38999Specs._get_contacts`.  `shell_style` arrives as the full word
`"Socket"` or `"Pin"` computed by `parse_part_number`, and the source
compares it with the single letter `'S'`.  The unguarded subscript
`self.CONTACT_SPECS[size]` is a potential `KeyError`, embedded in `Except`.
The empty-layout branch prints a warning and returns the empty list. -/
def get_contacts (cDeg sDeg : ℚ → ℚ) (shell_size : Nat) (arrangement : String)
    (shell_style : String) : Except PyErr (List SpecContact) :=
  match ((lookup' shell_size SPECS_INSERT_ARRANGEMENTS).bind
    (fun m => lookup' arrangement m)).getD [] with
  | [] => .ok []
  | cd0 :: rest =>
    (cd0 :: rest).mapM (fun cd =>
      match lookup' cd.size SPECS_CONTACT_SPECS with
      | none => .error (.keyError (toString cd.size))
      | some spec =>
        .ok { position := cd.pos
              size := cd.size
              x := (specs_contact_xy cDeg sDeg cd.radius cd.angle).1
              y := (specs_contact_xy cDeg sDeg cd.radius cd.angle).2
              type := if shell_style = "S" then "Socket" else "Pin"
              wire_gauge := spec.wire_gauge
              current_rating := spec.current_rating
              crimp_tool := spec.crimp_tool
              extraction_tool := spec.extraction_tool })

/-- `D38999Specs._get_dimensions` (the Python list holds `None` in the
series-dependent slots, filtered out at the end; here the two conditional
entries are appended directly). -/
def get_dimensions (shell_size : Nat) (series_code : Char) : List SpecDimension :=
  let shell_od : ℚ := (shell_size : ℚ) / 16 * (254/10)
  [⟨"Shell OD", shell_od, 1/4, "MS27473"⟩,
   ⟨"Thread Major Dia", shell_od - 3/2, 3/20, "MS27473"⟩,
   ⟨"Flange OD", shell_od + 6, 3/10, "MS27473"⟩,
   ⟨"Flange Thickness", 2, 1/10, "MS27473"⟩,
   ⟨"Shell Length", 25 + (shell_size : ℚ) * (1/2), 1/2, "MS27473"⟩,
   ⟨"Pin Depth", 8, 1/5, "MS27473"⟩]
  ++ (if series_code = 'W' then [⟨"Bayonet Pin Height", 3/2, 1/10, "MS27473"⟩] else [])
  ++ (if series_code = 'T' then [⟨"Thread Length", 12, 3/10, "MS27473"⟩] else [])

/-- `D38999Specs._get_assembly_tooling`: the per-contact crimp and
extraction tools and the fixed connector tools are accumulated into a Python
`set` and returned as `sorted(list(tools))`; here the accumulated multiset
is deduplicated and sorted lexicographically, which is the same list. -/
def get_assembly_tooling (contacts : List SpecContact) (series_code : Char) :
    List String :=
  let tools :=
    (contacts.map (fun ct => [ct.crimp_tool, ct.extraction_tool])).flatten
    ++ ["Insertion/Extraction Tool Set - M81969/14",
        "Contact Crimp Tool - M22520/2-01"]
    ++ (if series_code = 'T' then ["Coupling Nut Wrench"] else [])
    ++ ["Pin/Socket Gauge - MS27487", "Continuity Tester"]
  sortStrings tools.eraseDups

/-- `D38999Specs._get_voltage_rating` (independent of the shell size). -/
def get_voltage_rating (_shell_size : Nat) : VoltageRating :=
  ⟨600, 850, 150, 100, 1500, 5000⟩

/-- The shell-style word computed by `parse_part_number`:
`shell_style_code = descriptor[6] if len(descriptor) > 6 else 'S'` followed
by `shell_style = 'Socket' if shell_style_code == 'S' else 'Pin'`. -/
def shellStyleOf (descriptor : String) : String :=
  if (if descriptor.length > 6 then (pyCharAt descriptor 6).getD 'S' else 'S') = 'S'
  then "Socket" else "Pin"

/-- The descriptor-segment half of `D38999Specs.parse_part_number`, applied
after the format check: `int(descriptor[:2])` (its `ValueError` message is
embedded without the quotes Python puts around the literal),
`descriptor[2]` (a potential `IndexError`), `descriptor[3:6]`, and the
shell style of `shellStyleOf`. -/
def parseDescriptor (cDeg sDeg : ℚ → ℚ) (pn descriptor : String) :
    Except PyErr ConnectorSpecs :=
  match pyInt (pyTake descriptor 2) with
  | none => .error (.valueError ("invalid literal for int() with base 10: " ++
      pyTake descriptor 2))
  | some shell_size =>
    match pyCharAt descriptor 2 with
    | none => .error .indexError
    | some series_code =>
      match get_contacts cDeg sDeg shell_size (pySlice descriptor 3 6)
        (shellStyleOf descriptor) with
      | .error e => .error e
      | .ok contacts =>
        .ok { part_number := pn
              series := (lookup' series_code SPECS_SERIES).getD
                ("Unknown Series (" ++ String.mk [series_code] ++ ")")
              shell_size := shell_size
              insert_arrangement := pySlice descriptor 3 6
              contacts := contacts
              dimensions := get_dimensions shell_size series_code
              assembly_tooling := get_assembly_tooling contacts series_code
              voltage_rating := get_voltage_rating shell_size
              environmental_specs := SPECS_ENVIRONMENTAL
              mechanical_specs := SPECS_MECHANICAL }

/-- `D38999Specs.parse_part_number`: spaces removed, uppercased, split on
`'/'`; the explicit format check `len(parts) != 2 or not
parts[0].startswith('D38999')` raises
`ValueError(f"Invalid part number format: {part_number}")`. -/
def parse_part_number (cDeg sDeg : ℚ → ℚ) (input : String) :
    Except PyErr ConnectorSpecs :=
  match pySplitOnSlash (pyUpper (removeSpaces input)) with
  | [p0, descriptor] =>
    if pyStartsWith p0 "D38999" then
      parseDescriptor cDeg sDeg (pyUpper (removeSpaces input)) descriptor
    else .error (.valueError ("Invalid part number format: " ++
      pyUpper (removeSpaces input)))
  | _ => .error (.valueError ("Invalid part number format: " ++
      pyUpper (removeSpaces input)))

/-- The format predicate of `parse_part_number`'s explicit check, on the
normalized string. -/
def formatOk (n : String) : Bool :=
  match pySplitOnSlash n with
  | [p0, _] => pyStartsWith p0 "D38999"
  | _ => false

/-- A trivial stand-in for the abstracted trigonometric parameters in closed
statements. -/
def zeroFn : ℚ → ℚ := fun _ => 0

deriving instance DecidableEq for Except

/-! ## Fixture values used by the theorems below -/

/-- The scenario descriptor of the spec: series 26, class F, shell A, insert
A35, contact type P, polarization N — the instance state `__init__` produces
for these inputs. -/
def pn7 : D38999PartNumber :=
  ⟨"26", "F", "A", "A35", "P", "N", "III", "Plug with accessory threads"⟩

/-- A descriptor whose insert arrangement `C35` is in the count/size table
but carries no explicit position list. -/
def pnC35 : D38999PartNumber :=
  ⟨"26", "F", "A", "C35", "P", "N", "III", "Plug with accessory threads"⟩

/-- A descriptor with a valid series code and unknown class, shell, insert,
contact-type and polarization codes — the instance `__init__` produces for
inputs `("26", "q", "q", "zzz", "q", "q")`. -/
def pnQ : D38999PartNumber :=
  ⟨"26", "Q", "Q", "ZZZ", "Q", "Q", "III", "Plug with accessory threads"⟩

/-- The instance state `__init__` produces for the inputs
`("26", " f ", "A", "A35", "P", "N")`: the class code is uppercased but its
surrounding spaces are kept. -/
def pnSpacedClass : D38999PartNumber :=
  ⟨"26", " F ", "A", "A35", "P", "N", "III", "Plug with accessory threads"⟩

/-- A contact of the given size as `_get_contacts` would emit it (tool
fields joined from `CONTACT_SPECS`); position data is irrelevant to tooling
aggregation. -/
def sizedContact (p : String) (sz : Nat) : SpecContact :=
  match lookup' sz SPECS_CONTACT_SPECS with
  | some spec => ⟨p, sz, 0, 0, "Pin", spec.wire_gauge, spec.current_rating,
      spec.crimp_tool, spec.extraction_tool⟩
  | none => ⟨p, sz, 0, 0, "Pin", "", 0, "", ""⟩

/-- The contact sequence of claim C4: sizes 20, 20, 16, 20, 16. -/
def contacts_20_20_16_20_16 : List SpecContact :=
  [sizedContact "1" 20, sizedContact "2" 20, sizedContact "3" 16,
   sizedContact "4" 20, sizedContact "5" 16]

/-- Modelled from the spec's words for claim C5, not from the source: first
subtract 90 degrees from the angle, then take `x = radius * cos(adjusted)`
and `y = radius * sin(adjusted)`, scaled by the fixed scale factor (the
trigonometric functions over the degree angle abstracted as `cDeg`/`sDeg`,
as in `specs_contact_xy`). -/
def claimed_projection (cDeg sDeg : ℚ → ℚ) (scale radius angle : ℚ) : ℚ × ℚ :=
  (scale * (radius * cDeg (angle - 90)), scale * (radius * sDeg (angle - 90)))

/-! ## Helper lemmas -/

theorem lookup'_eq_none_iff {α β : Type} [DecidableEq α] (a : α) (l : List (α × β)) :
    lookup' a l = none ↔ ∀ p ∈ l, a ≠ p.1 := by
  induction l with
  | nil => simp [lookup']
  | cons hd tl ih =>
    cases hd with
    | mk k v =>
      by_cases h : a = k
      · subst h
        simp [lookup']
      · simp [lookup', h, ih]

/-- A shell code absent from `SHELL_SIZES` is absent from both per-series
dimension tables (their key sets are subsets of the shell-size keys). -/
theorem shell_none_dims_none (x : String) (h : lookup' x SHELL_SIZES = none) :
    lookup' x SERIES_III_DIMENSIONS = none ∧ lookup' x SERIES_IV_DIMENSIONS = none := by
  rw [lookup'_eq_none_iff] at h
  simp only [SHELL_SIZES, List.forall_mem_cons, List.not_mem_nil] at h
  constructor <;>
    · rw [lookup'_eq_none_iff]
      simp only [SERIES_III_DIMENSIONS, SERIES_IV_DIMENSIONS, List.forall_mem_cons]
      simp_all

/-- `_get_contacts` never raises: the only layout in the database resolves
every contact size, and an unknown (shell, arrangement) pair yields the
empty contact list. -/
theorem get_contacts_total (cDeg sDeg : ℚ → ℚ) (shell_size : Nat)
    (arrangement shell_style : String) :
    ∃ l, get_contacts cDeg sDeg shell_size arrangement shell_style = .ok l := by
  by_cases h24 : shell_size = 24
  · subst h24
    by_cases hA : arrangement = "A98"
    · subst hA
      exact ⟨_, rfl⟩
    · have hlay : ((lookup' 24 SPECS_INSERT_ARRANGEMENTS).bind
          (fun m => lookup' arrangement m)).getD [] = ([] : List SpecPos) := by
        simp [SPECS_INSERT_ARRANGEMENTS, lookup', hA]
      unfold get_contacts
      rw [hlay]
      exact ⟨[], rfl⟩
  · have hlay : ((lookup' shell_size SPECS_INSERT_ARRANGEMENTS).bind
        (fun m => lookup' arrangement m)).getD [] = ([] : List SpecPos) := by
      simp [SPECS_INSERT_ARRANGEMENTS, lookup', h24]
    unfold get_contacts
    rw [hlay]
    exact ⟨[], rfl⟩

/-- The two `ValueError` messages of `parse_part_number` start with
different characters, so they are never equal. -/
theorem msg_head_ne (t m : String) :
    ("invalid literal for int() with base 10: " ++ t) ≠
      ("Invalid part number format: " ++ m) := by
  intro h
  have h0 := congrArg (fun s => s.data.head?) h
  have h1 : some 'i' = some 'I' := h0
  exact absurd h1 (by decide)

/-- Once the format check has passed, `parse_part_number` never produces the
malformed-format `ValueError`: the remaining failure modes are the
`int()` conversion error and the `IndexError` of `descriptor[2]`. -/
theorem parseDescriptor_no_format_error (cDeg sDeg : ℚ → ℚ) (pn d m : String) :
    parseDescriptor cDeg sDeg pn d ≠
      .error (.valueError ("Invalid part number format: " ++ m)) := by
  unfold parseDescriptor
  cases hInt : pyInt (pyTake d 2) with
  | none =>
    simp only [hInt]
    intro h
    injection h with h
    injection h with h
    exact msg_head_ne _ _ h
  | some sz =>
    simp only [hInt]
    cases hChar : pyCharAt d 2 with
    | none =>
      simp only [hChar]
      intro h
      injection h with h
      injection h
    | some ch =>
      simp only [hChar]
      cases hgc : get_contacts cDeg sDeg sz (pySlice d 3 6) (shellStyleOf d) with
      | error e =>
        obtain ⟨l, hl⟩ := get_contacts_total cDeg sDeg sz (pySlice d 3 6) (shellStyleOf d)
        rw [hl] at hgc
        exact absurd hgc (by simp)
      | ok contacts =>
        simp only [hgc]
        intro h
        injection h

/-- `get_properties` degrades gracefully on every soft lookup: a missing
table entry leaves the corresponding output fields absent. -/
theorem get_properties_graceful (pn : D38999PartNumber) :
    (lookup' pn.class_code ALL_CLASSES = none →
      (get_properties pn).finish = none ∧ (get_properties pn).material = none ∧
      (get_properties pn).temperature_range = none)
    ∧ (lookup' pn.shell_code SHELL_SIZES = none →
      (get_properties pn).shell_size = none ∧ (get_properties pn).thread_size = none ∧
      (get_properties pn).dimensions = none)
    ∧ (lookup' pn.insert_arrangement INSERT_ARRANGEMENTS = none →
      (get_properties pn).contact_count = none ∧
      (get_properties pn).contact_positions = none ∧
      (get_properties pn).tooling = none)
    ∧ (lookup' pn.contact_type CONTACT_TYPES = none →
      (get_properties pn).contact_gender = none ∧
      (get_properties pn).mating_cycles = none)
    ∧ (lookup' pn.polarization POLARIZATIONS = none →
      (get_properties pn).polarization = none) := by
  refine ⟨fun h => ?_, fun h => ?_, fun h => ?_, fun h => ?_, fun h => ?_⟩
  · simp [get_properties, h]
  · have hd := shell_none_dims_none pn.shell_code h
    simp [get_properties, h, hd.1, hd.2]
  · simp [get_properties, h]
  · simp [get_properties, h]
  · simp [get_properties, h]

/-! ## Claim theorems -/

/-- Claim C1, counterexample: parsing the part number built from the valid
descriptor (26, F, A, A35, P, N) does not recover its six fields — the
parsed insert arrangement is "AA3" (the shell code followed by the first two
insert characters), not "A35". -/
theorem parse_build_not_inverse_cex :
    (parse_part_number zeroFn zeroFn (build_part_number pn7)).map
        (fun r => r.insert_arrangement) = .ok "AA3"
    ∧ pn7.insert_arrangement = "A35"
    ∧ ("AA3" : String) ≠ "A35" :=
  ⟨rfl, rfl, by decide⟩

/-- Claim C1, amended: round-trip does not hold; `parse_part_number` reads
the built string at different positions.  For the valid descriptor
(26, F, A, A35, P, N) the built part number parses successfully, but into a
record whose `shell_size` is 26 (the series code read as a number), whose
`series` is "Unknown Series (F)" (the class code read as the series letter),
and whose `insert_arrangement` is "AA3"; the original six fields are not
recovered. -/
theorem parse_build_reinterprets_fields (cDeg sDeg : ℚ → ℚ) :
    build_part_number pn7 = "D38999/26FAA35PN"
    ∧ (parse_part_number cDeg sDeg (build_part_number pn7)).map
        (fun r => (r.shell_size, r.series, r.insert_arrangement, r.part_number)) =
      .ok (26, "Unknown Series (F)", "AA3", "D38999/26FAA35PN") :=
  ⟨rfl, rfl⟩

/-- Claim C2: resolution never fails once construction succeeded — every
soft lookup that misses leaves the corresponding fields unavailable
(`none`), in particular an unknown shell code yields a record with the
shell fields absent rather than an exception, and the resolved record is
still produced (witnessed by its always-populated coupling type). -/
theorem resolve_never_fails_graceful (s0 c0 sh0 i0 ct0 p0 : String)
    (pn : D38999PartNumber)
    (hmk : mk_part_number s0 c0 sh0 i0 ct0 p0 = .ok pn) :
    (lookup' pn.class_code ALL_CLASSES = none →
      (get_properties pn).finish = none ∧ (get_properties pn).material = none ∧
        (get_properties pn).temperature_range = none)
    ∧ (lookup' pn.shell_code SHELL_SIZES = none →
      (get_properties pn).shell_size = none ∧ (get_properties pn).thread_size = none ∧
        (get_properties pn).dimensions = none)
    ∧ (lookup' pn.insert_arrangement INSERT_ARRANGEMENTS = none →
      (get_properties pn).contact_count = none ∧
        (get_properties pn).contact_positions = none ∧
        (get_properties pn).tooling = none)
    ∧ (lookup' pn.contact_type CONTACT_TYPES = none →
      (get_properties pn).contact_gender = none ∧
        (get_properties pn).mating_cycles = none)
    ∧ (lookup' pn.polarization POLARIZATIONS = none →
      (get_properties pn).polarization = none)
    ∧ (get_properties pn).coupling_type.isSome = true := by
  have hg := get_properties_graceful pn
  refine ⟨hg.1, hg.2.1, hg.2.2.1, hg.2.2.2.1, hg.2.2.2.2, ?_⟩
  unfold mk_part_number at hmk
  cases h3 : lookup' s0 SERIES_III with
  | some d =>
    rw [h3] at hmk
    injection hmk with hmk
    subst hmk
    simp [get_properties]
  | none =>
    rw [h3] at hmk
    cases h4 : lookup' s0 SERIES_IV with
    | some d =>
      rw [h4] at hmk
      injection hmk with hmk
      subst hmk
      simp [get_properties]
    | none =>
      rw [h4] at hmk
      exact absurd hmk (by simp)

/-- Witness for claim C2: the descriptor constructed from
("26", "q", "q", "zzz", "q", "q") has a valid series code and five unknown
codes, and resolution leaves all the corresponding fields absent while still
producing a record. -/
theorem resolve_never_fails_graceful_witness :
    (get_properties pnQ).finish = none ∧ (get_properties pnQ).shell_size = none ∧
    (get_properties pnQ).contact_count = none ∧
    (get_properties pnQ).contact_gender = none ∧
    (get_properties pnQ).polarization = none ∧
    (get_properties pnQ).coupling_type.isSome = true := by
  have h := resolve_never_fails_graceful "26" "q" "q" "zzz" "q" "q" pnQ rfl
  exact ⟨(h.1 (by decide)).1, (h.2.1 (by decide)).1, (h.2.2.1 (by decide)).1,
    (h.2.2.2.1 (by decide)).1, h.2.2.2.2.1 (by decide), h.2.2.2.2.2⟩

/-- Claim C3: descriptor construction fails exactly when the series code is
in neither series table, the failure carries the offending code, and for
every choice of the other five codes a valid series code constructs
successfully. -/
theorem construction_single_gate (s0 c0 sh0 i0 ct0 p0 : String) :
    (lookup' s0 SERIES_III = none → lookup' s0 SERIES_IV = none →
      mk_part_number s0 c0 sh0 i0 ct0 p0 =
        .error (.valueError ("Invalid series code: " ++ s0)))
    ∧ ((lookup' s0 SERIES_III ≠ none ∨ lookup' s0 SERIES_IV ≠ none) →
      ∃ pn, mk_part_number s0 c0 sh0 i0 ct0 p0 = .ok pn) := by
  constructor
  · intro h3 h4
    unfold mk_part_number
    rw [h3, h4]
  · intro h
    unfold mk_part_number
    cases h3 : lookup' s0 SERIES_III with
    | some d =>
      exact ⟨⟨s0, pyUpper c0, pyUpper sh0, pyUpper i0, pyUpper ct0, pyUpper p0,
        "III", d⟩, rfl⟩
    | none =>
      cases h4 : lookup' s0 SERIES_IV with
      | some d =>
        exact ⟨⟨s0, pyUpper c0, pyUpper sh0, pyUpper i0, pyUpper ct0, pyUpper p0,
          "IV", d⟩, rfl⟩
      | none =>
        rcases h with h | h
        · exact absurd h3 h
        · exact absurd h4 h

/-- Witness for claim C3: series code "99" is rejected with the offending
code in the error, and series code "26" constructs for an arbitrary choice
of the other five codes. -/
theorem construction_single_gate_witness :
    mk_part_number "99" "F" "A" "A35" "P" "N" =
      .error (.valueError ("Invalid series code: " ++ "99"))
    ∧ ∃ pn, mk_part_number "26" "F" "A" "A35" "P" "N" = .ok pn :=
  ⟨(construction_single_gate "99" "F" "A" "A35" "P" "N").1 (by decide) (by decide),
   (construction_single_gate "26" "F" "A" "A35" "P" "N").2 (Or.inl (by decide))⟩

/-- Claim C4, counterexample: for contacts with sizes 20, 20, 16, 20, 16
(two distinct sizes), the aggregated tooling list has seven entries — not
one entry per distinct contact size — and its first entry is a fixed
connector tool, not the tooling of size 20. -/
theorem tooling_first_appearance_cex :
    (contacts_20_20_16_20_16.map (fun ct => ct.size)).eraseDups = [20, 16]
    ∧ (get_assembly_tooling contacts_20_20_16_20_16 'Z').length = 7
    ∧ (get_assembly_tooling contacts_20_20_16_20_16 'Z').head? =
        some "Contact Crimp Tool - M22520/2-01"
    ∧ (7 : Nat) ≠ 2 := by decide

/-- Claim C4, amended: the aggregated tooling list is the lexicographically
sorted deduplication of every contact's crimp-tool and extraction-tool
strings together with four fixed connector tools (plus a coupling-nut
wrench for series code T) — not one crimp/extraction pair per distinct
size in first-appearance order. -/
theorem tooling_sorted_dedup_amended :
    get_assembly_tooling contacts_20_20_16_20_16 'Z' =
      ["Contact Crimp Tool - M22520/2-01", "Continuity Tester",
       "Insertion/Extraction Tool Set - M81969/14", "M22520/2-01",
       "M81969/14-04", "M81969/14-05", "Pin/Socket Gauge - MS27487"]
    ∧ get_assembly_tooling contacts_20_20_16_20_16 'T' =
      ["Contact Crimp Tool - M22520/2-01", "Continuity Tester",
       "Coupling Nut Wrench", "Insertion/Extraction Tool Set - M81969/14",
       "M22520/2-01", "M81969/14-04", "M81969/14-05",
       "Pin/Socket Gauge - MS27487"] := by decide

/-- Claim C5, counterexample: the parser's contact projection does not
subtract 90 degrees.  At the angle-0 contact of arrangement A98 (radius
9.5), with the identity in place of the abstracted trigonometric map, the
code path (`specs_contact_xy`, the coordinate computation of
`_get_contacts`) produces (0, 0) while the claimed convention produces
(-855, -855). -/
theorem projection_minus90_cex :
    A98_layout.head? = some ⟨"A", 16, 0, 19/2⟩
    ∧ specs_contact_xy id id (19/2) 0 = (0, 0)
    ∧ claimed_projection id id 1 (19/2) 0 = (-855, -855)
    ∧ ((0 : ℚ), (0 : ℚ)) ≠ ((-855 : ℚ), (-855 : ℚ)) := by
  refine ⟨rfl, ?_, ?_, ?_⟩
  · unfold specs_contact_xy pyRound2
    norm_num
  · unfold claimed_projection
    norm_num
  · intro h
    rw [Prod.ext_iff] at h
    exact absurd h.1 (by norm_num)

/-- Claim C5, amended: only the SVG renderer follows the subtract-90
convention (with π approximated as 3.14159 and the center offset); the
parser's `_get_contacts` converts the raw angle with no 90-degree shift and
no scale factor, so the degree arguments of the two paths always differ. -/
theorem projection_two_conventions (cosf sinf cDeg sDeg : ℚ → ℚ)
    (cx cy scale radius angle : ℚ) (p : PosDef) :
    svgDot cosf sinf cx cy scale p =
      (cx + p.radius * scale * cosf ((p.angle - 90) * (314159 / 100000) / 180),
       cy + p.radius * scale * sinf ((p.angle - 90) * (314159 / 100000) / 180))
    ∧ specs_contact_xy cDeg sDeg radius angle =
      (pyRound2 (radius * cDeg angle), pyRound2 (radius * sDeg angle))
    ∧ angle - 90 ≠ angle := by
  refine ⟨rfl, rfl, ?_⟩
  intro h
  have h90 : (90 : ℚ) = 0 := by linarith
  norm_num at h90

/-- Claim C6: insert arrangement C35 is in the count/size table with no
explicit position list; resolution populates the contact count (22) and
leaves the positions absent, and the SVG generator then returns the
explicit no-layout message rather than a drawing with an empty contact
list. -/
theorem no_layout_distinct_signal (cosf sinf : ℚ → ℚ) (render : SvgData → String) :
    mk_part_number "26" "F" "A" "C35" "P" "N" = .ok pnC35
    ∧ (get_properties pnC35).contact_count = some 22
    ∧ (get_properties pnC35).contact_positions = none
    ∧ generate_svg cosf sinf render pnC35 =
        "SVG generation requires contact position data" :=
  ⟨rfl, rfl, rfl, rfl⟩

/-- Claim C7: the scenario descriptor (26, F, A, A35, P, N) builds the part
number D38999/26FAA35PN and resolves to contact count 6, gender Pin, finish
Electroless Nickel, and coupling type Triple-start thread. -/
theorem scenario_d38999_26faa35pn :
    mk_part_number "26" "F" "A" "A35" "P" "N" = .ok pn7
    ∧ build_part_number pn7 = "D38999/26FAA35PN"
    ∧ (get_properties pn7).contact_count = some 6
    ∧ (get_properties pn7).contact_gender = some "Pin"
    ∧ (get_properties pn7).finish = some "Electroless Nickel"
    ∧ (get_properties pn7).coupling_type = some "Triple-start thread" :=
  ⟨rfl, rfl, rfl, rfl, rfl, rfl⟩

/-- Claim C8, counterexample: the wrong separator raises the malformed
error, but a string with too few characters ("D38999/24") raises an
`IndexError`, not the malformed-format error. -/
theorem malformed_error_scope_cex :
    parse_part_number zeroFn zeroFn "D38999-26FAA35PN" =
      .error (.valueError "Invalid part number format: D38999-26FAA35PN")
    ∧ parse_part_number zeroFn zeroFn "D38999/24" = .error .indexError
    ∧ PyErr.indexError ≠
        PyErr.valueError "Invalid part number format: D38999/24" :=
  ⟨rfl, rfl, by decide⟩

/-- Claim C8, amended: the malformed-format error is raised exactly when the
normalized input does not split on the separator into two parts with the
first starting with D38999; once that check passes the error can never be
produced, and a too-short descriptor raises an index error instead. -/
theorem malformed_error_exact_scope (cDeg sDeg : ℚ → ℚ) (input : String) :
    (formatOk (pyUpper (removeSpaces input)) = false →
      parse_part_number cDeg sDeg input =
        .error (.valueError ("Invalid part number format: " ++
          pyUpper (removeSpaces input))))
    ∧ (formatOk (pyUpper (removeSpaces input)) = true →
      ∀ m, parse_part_number cDeg sDeg input ≠
        .error (.valueError ("Invalid part number format: " ++ m)))
    ∧ parse_part_number cDeg sDeg "D38999/24" = .error .indexError := by
  refine ⟨?_, ?_, rfl⟩
  · intro hbad
    unfold parse_part_number
    unfold formatOk at hbad
    cases hsplit : pySplitOnSlash (pyUpper (removeSpaces input)) with
    | nil => rfl
    | cons p0 rest =>
      cases rest with
      | nil => rfl
      | cons d rest2 =>
        cases rest2 with
        | nil =>
          rw [hsplit] at hbad
          have hb : pyStartsWith p0 "D38999" = false := hbad
          simp [hb]
        | cons x xs => rfl
  · intro hok m
    unfold parse_part_number
    unfold formatOk at hok
    cases hsplit : pySplitOnSlash (pyUpper (removeSpaces input)) with
    | nil =>
      rw [hsplit] at hok
      exact Bool.noConfusion (show false = true from hok)
    | cons p0 rest =>
      cases rest with
      | nil =>
        rw [hsplit] at hok
        exact Bool.noConfusion (show false = true from hok)
      | cons d rest2 =>
        cases rest2 with
        | nil =>
          rw [hsplit] at hok
          have hb : pyStartsWith p0 "D38999" = true := hok
          simp only [hb, if_true]
          exact parseDescriptor_no_format_error cDeg sDeg _ d m
        | cons x xs =>
          rw [hsplit] at hok
          exact Bool.noConfusion (show false = true from hok)

/-- Witness for claim C8: the wrong-separator input is rejected with the
malformed error, and a well-formatted input can never produce it. -/
theorem malformed_error_exact_scope_witness :
    parse_part_number zeroFn zeroFn "D38999-26FAA35PN" =
      .error (.valueError ("Invalid part number format: " ++
        pyUpper (removeSpaces "D38999-26FAA35PN")))
    ∧ parse_part_number zeroFn zeroFn "D38999/24ZA98SN" ≠
      .error (.valueError ("Invalid part number format: " ++ "D38999/24ZA98SN")) :=
  ⟨(malformed_error_exact_scope zeroFn zeroFn "D38999-26FAA35PN").1 (by decide),
   (malformed_error_exact_scope zeroFn zeroFn "D38999/24ZA98SN").2.1 (by decide)
     "D38999/24ZA98SN"⟩

/-- Claim C9, counterexample: construction does not trim surrounding
whitespace — the class code " f " is stored as " F ", not "F". -/
theorem normalization_trim_cex :
    (mk_part_number "26" " f " "A" "A35" "P" "N").map (fun r => r.class_code) =
      .ok " F "
    ∧ (" F " : String) ≠ "F" :=
  ⟨rfl, by decide⟩

/-- Claim C9, amended: on successful construction the class, shell, insert,
contact-type and polarization codes are stored uppercased but not trimmed,
and the series code is stored verbatim (neither uppercased nor trimmed). -/
theorem normalization_upper_not_trim (s0 c0 sh0 i0 ct0 p0 : String)
    (pn : D38999PartNumber)
    (hmk : mk_part_number s0 c0 sh0 i0 ct0 p0 = .ok pn) :
    pn.series_code = s0 ∧ pn.class_code = pyUpper c0 ∧
    pn.shell_code = pyUpper sh0 ∧ pn.insert_arrangement = pyUpper i0 ∧
    pn.contact_type = pyUpper ct0 ∧ pn.polarization = pyUpper p0 := by
  unfold mk_part_number at hmk
  cases h3 : lookup' s0 SERIES_III with
  | some d =>
    rw [h3] at hmk
    injection hmk with hmk
    subst hmk
    exact ⟨rfl, rfl, rfl, rfl, rfl, rfl⟩
  | none =>
    rw [h3] at hmk
    cases h4 : lookup' s0 SERIES_IV with
    | some d =>
      rw [h4] at hmk
      injection hmk with hmk
      subst hmk
      exact ⟨rfl, rfl, rfl, rfl, rfl, rfl⟩
    | none =>
      rw [h4] at hmk
      exact absurd hmk (by simp)

/-- Witness for claim C9 at the inputs ("26", " f ", "A", "A35", "P", "N"). -/
theorem normalization_upper_not_trim_witness :
    pnSpacedClass.series_code = "26" ∧ pnSpacedClass.class_code = pyUpper " f " ∧
    pnSpacedClass.shell_code = pyUpper "A" ∧
    pnSpacedClass.insert_arrangement = pyUpper "A35" ∧
    pnSpacedClass.contact_type = pyUpper "P" ∧
    pnSpacedClass.polarization = pyUpper "N" :=
  normalization_upper_not_trim "26" " f " "A" "A35" "P" "N" pnSpacedClass rfl

/-- Claim C10: in the parsed part number D38999/24ZA98SN the seventh
descriptor character is the letter S and the decoded shell style is the
word Socket, yet every contact's gender is Pin, because `_get_contacts`
compares the style word against the single letter; the same holds for the
six-character descriptor 24ZA98 whose style silently defaults to Socket. -/
theorem shell_style_gender_always_pin (cDeg sDeg : ℚ → ℚ) :
    pyCharAt "24ZA98SN" 6 = some 'S'
    ∧ shellStyleOf "24ZA98SN" = "Socket"
    ∧ (parse_part_number cDeg sDeg "D38999/24ZA98SN").map
        (fun r => r.contacts.map (fun ct => ct.type)) =
      .ok (List.replicate 16 "Pin")
    ∧ shellStyleOf "24ZA98" = "Socket"
    ∧ (parse_part_number cDeg sDeg "D38999/24ZA98").map
        (fun r => r.contacts.map (fun ct => ct.type)) =
      .ok (List.replicate 16 "Pin") :=
  ⟨rfl, rfl, rfl, rfl, rfl⟩
